import Mathlib

/-!
Shallow embedding of the ETH v2 activation pipeline from
`mm2src/coins/eth/v2_activation.rs` (non-wasm build: all
`cfg(target_arch = "wasm32")` items are absent), together with the
process-wide nonce registry and the cancellation-scope tree it uses.

External collaborators (URI parsing, the RNG shuffle, the
`web3_clientVersion` probe, secp256k1 key derivation, the on-chain
`get_token_decimals` query) are modelled as an explicit oracle
environment `Env`; the activation functions are otherwise translated
statement by statement from the source.
-/

namespace EthActivation

/-- Ethereum account address (H160) as a natural number; `Address::default()`
(the zero address) is `0`. -/
abbrev Address := Nat

/-- `keys::KeyPair` as consumed here: the secret (passed to the gui-auth
validation generator via `key_pair.secret()`) and the address derived from
its public key (`key_pair.address()`). -/
structure KeyPair where
  secret : Nat
  address : Address
deriving DecidableEq

/-- `EthNode` from the activation request: a URL plus the `gui_auth` flag. -/
structure EthNode where
  url : String
  gui_auth : Bool
deriving DecidableEq

/-- `EthRpcMode`; the non-wasm build has only the `Http` variant. -/
inductive EthRpcMode
| Http
deriving DecidableEq

/-- `EthPrivKeyActivationPolicy`; the non-wasm build has only
`ContextPrivKey`. -/
inductive EthPrivKeyActivationPolicy
| ContextPrivKey
deriving DecidableEq

/-- Modelled from the spec: opaque gas-station price policy enum with a
default variant (`GasStationPricePolicy` lives in `eth.rs`, outside the
given sources; the activation code only moves it around). -/
inductive GasStationPricePolicy
| MeanGasPrice
| Provided
deriving DecidableEq

/-- `EthActivationV2Request`. -/
structure EthActivationV2Request where
  nodes : List EthNode
  rpc_mode : EthRpcMode
  swap_contract_address : Address
  fallback_swap_contract : Option Address
  gas_station_url : Option String
  gas_station_decimals : Option Nat
  gas_station_policy : GasStationPricePolicy
  mm2 : Option Nat
  required_confirmations : Option Nat
  priv_key_policy : EthPrivKeyActivationPolicy
deriving DecidableEq

/-- `EthActivationV2Error` (non-wasm variants). -/
inductive EthActivationV2Error
| InvalidPayload (msg : String)
| InvalidSwapContractAddr (msg : String)
| InvalidFallbackSwapContract (msg : String)
| ActivationFailed (ticker error : String)
| CouldNotFetchBalance (msg : String)
| UnreachableNodes (msg : String)
| AtLeastOneNodeRequired
| DerivationPathIsNotSet
| ErrorDeserializingDerivationPath (msg : String)
| PrivKeyPolicyNotAllowed
| InternalError (msg : String)
deriving DecidableEq

/-- `Erc20TokenActivationError`. -/
inductive Erc20TokenActivationError
| InternalError (msg : String)
| CouldNotFetchBalance (msg : String)
deriving DecidableEq

/-- `Erc20TokenActivationRequest`. -/
structure Erc20TokenActivationRequest where
  required_confirmations : Option Nat
deriving DecidableEq

/-- `Erc20Protocol`. -/
structure Erc20Protocol where
  platform : String
  token_addr : Address
deriving DecidableEq

/-- `HttpTransportNode`: a parsed URI (abstracted as its textual form)
plus the `gui_auth` flag. -/
structure HttpTransportNode where
  uri : String
  gui_auth : Bool
deriving DecidableEq

/-- `GuiAuthValidationGenerator`: the per-coin identity data placed on an
authenticated transport. -/
structure GuiAuthValidationGenerator where
  coin_ticker : String
  secret : Nat
  address : String
deriving DecidableEq

/-- `HttpTransport` (the only `Web3Transport` variant in the non-wasm
build): its node list and its optional gui-auth validation generator.
The rpc event handlers are pure logging sinks and are not modelled. -/
structure HttpTransport where
  nodes : List HttpTransportNode
  gui_auth_validation_generator : Option GuiAuthValidationGenerator
deriving DecidableEq

/-- `Web3Transport` is `HttpTransport` in the non-wasm build. -/
abbrev Web3Transport := HttpTransport

/-- `Web3<Web3Transport>`: a client owning its transport. -/
structure Web3 where
  transport : Web3Transport
deriving DecidableEq

/-- `Web3Instance`: a single-endpoint client plus the parity-server flag
assigned at probe time. -/
structure Web3Instance where
  web3 : Web3
  is_parity : Bool
deriving DecidableEq

/-- `HistorySyncState`; the platform constructor stores `NotEnabled`,
the token constructor copies the platform coin's current value. -/
inductive HistorySyncState
| NotEnabled
| NotStarted
| InProgress (info : Nat)
| Error (info : Nat)
| Finished
deriving DecidableEq

/-- The per-asset JSON config, restricted to the fields this pipeline
reads (`conf["decimals"]`, `conf["required_confirmations"]`,
`conf["chain_id"]`, `conf["logs_block_range"]`,
`conf["sign_message_prefix"]`, `conf["derivation_path"]`). -/
structure CoinConf where
  decimals : Option Nat
  required_confirmations : Option Nat
  chain_id : Option Nat
  logs_block_range : Option Nat
  sign_message_pfx : Option String
  derivation_path : Option String
deriving DecidableEq

/-- Modelled from the spec: the process-wide `NONCE_LOCK` registry
(defined in `eth.rs`, outside the given sources). It is a map from a
`String` key to a nonce-lock handle; `new_nonce_lock` allocates a fresh
`Arc`-backed lock, so handle identity is modelled by a numeric id that
is unique per allocation (`next` is the next fresh id). -/
structure NonceRegistry where
  entries : List (String × Nat)
  next : Nat
deriving DecidableEq

/-- `map.entry(key).or_insert_with(new_nonce_lock).clone()`: return the
existing handle for `key`, or insert and return a fresh one. -/
def NonceRegistry.acquire (reg : NonceRegistry) (key : String) : Nat × NonceRegistry :=
  match reg.entries.lookup key with
  | some h => (h, reg)
  | none => (reg.next, ⟨(key, reg.next) :: reg.entries, reg.next + 1⟩)

/-- Well-formedness of the registry as maintained by the real code:
keys are unique (`HashMap` semantics), handle identities are unique
(each `new_nonce_lock` is a fresh allocation), and every allocated id
is below the fresh-id counter. -/
def NonceRegistry.WF (reg : NonceRegistry) : Prop :=
  (reg.entries.map Prod.fst).Nodup ∧
  (reg.entries.map Prod.snd).Nodup ∧
  ∀ p ∈ reg.entries, p.2 < reg.next

/-- Modelled from the spec: the `AbortableSystem` scope tree
(`common::executor`, outside the given sources). Scopes are numbered;
`parentOf` records child-to-parent edges, `aborted` the scopes already
cancelled, `next` the next fresh scope id. -/
structure ScopeForest where
  parentOf : List (Nat × Nat)
  aborted : List Nat
  next : Nat
deriving DecidableEq

/-- Modelled from the spec: `create_subsystem` registers a fresh child
scope under the given parent and fails with `AbortedError` if the parent
scope has already been aborted (the fallibility itself is visible in the
source through the `?` operator and the `From<AbortedError>`
conversions). -/
def ScopeForest.create_subsystem (f : ScopeForest) (parent : Nat) :
    Except Unit (Nat × ScopeForest) :=
  if f.aborted.contains parent then Except.error ()
  else Except.ok (f.next,
    { parentOf := (f.next, parent) :: f.parentOf, aborted := f.aborted, next := f.next + 1 })

/-- Parent of a scope, if any. -/
def ScopeForest.parent? (f : ScopeForest) (s : Nat) : Option Nat :=
  f.parentOf.lookup s

/-- The chain of ancestors of a scope, walked with explicit fuel. -/
def ScopeForest.ancestors (f : ScopeForest) : Nat → Nat → List Nat
| 0, _ => []
| fuel + 1, s =>
  match f.parentOf.lookup s with
  | none => []
  | some p => p :: f.ancestors fuel p

/-- `s` is a strict descendant of `t` in the scope tree. -/
def ScopeForest.isDescendantOf (f : ScopeForest) (s t : Nat) : Bool :=
  (f.ancestors f.parentOf.length s).contains t

/-- Modelled from the spec: cancelling scope `cancelled` terminates
exactly the tasks registered under `cancelled` itself or under one of
its descendants (cancellation cascades to children, recursively). -/
def cancelTerminates (f : ScopeForest) (cancelled taskScope : Nat) : Bool :=
  taskScope == cancelled || f.isDescendantOf taskScope cancelled

/-- Well-formedness of the scope forest: every recorded child was
allocated after its parent and below the fresh-id counter. -/
def ScopeForest.WF (f : ScopeForest) : Prop :=
  ∀ pr ∈ f.parentOf, pr.2 < pr.1 ∧ pr.1 < f.next

/-- The mutable global state threaded through activation: the
process-wide `NONCE_LOCK` registry and the scope tree. -/
structure World where
  NONCE_LOCK : NonceRegistry
  scopes : ScopeForest

/-- `MmCtx` restricted to what this pipeline uses: per-ticker coin
config lookup (`coin_conf`) and the root abortable-system scope. -/
structure MmCtx where
  coin_conf : String → CoinConf
  abortable_system : Nat

/-- Oracle environment for the external collaborators: `http::Uri`
parsing, the RNG shuffle, the `web3_clientVersion` probe (a function of
the probed node), `KeyPair::from_secret_slice` plus address derivation,
`checksum_address` of the formatted address, `StandardHDPathToCoin`
deserialization, `derive_secp256k1_secret`, and the on-chain
`get_token_decimals` query. -/
structure Env where
  parseUri : String → Option String
  shuffle : List HttpTransportNode → List HttpTransportNode
  client_version : HttpTransportNode → Option String
  keyPairFromSecretSlice : List Nat → Except String KeyPair
  checksum_address : Address → String
  parseDerivationPath : String → Except String Nat
  derive_secp256k1_secret : Nat → Nat → Except String (List Nat)
  get_token_decimals : Web3 → Address → Except String Nat

/-- `EthPrivKeyBuildPolicy` (non-wasm variants): a raw iguana secret or
a global HD account context (abstracted as an opaque handle). -/
inductive EthPrivKeyBuildPolicy
| IguanaPrivKey (secret : List Nat)
| GlobalHDAccount (hd_ctx : Nat)
deriving DecidableEq

/-- `EthPrivKeyPolicy` (non-wasm build): only the `KeyPair` variant. -/
inductive EthPrivKeyPolicy
| KeyPair (key_pair : KeyPair)
deriving DecidableEq

/-- `EthCoinType`. -/
inductive EthCoinType
| Eth
| Erc20 (platform : String) (token_addr : Address)
deriving DecidableEq

/-- `EthCoinImpl` restricted to the non-wasm build; `ctx` holds the
weak `MmCtx` reference (`none` models a dead weak reference),
`nonce_lock` the identity of the shared nonce handle and
`abortable_system` the coin's scope id. -/
structure EthCoinImpl where
  priv_key_policy : EthPrivKeyPolicy
  my_address : Address
  coin_type : EthCoinType
  sign_message_pfx : Option String
  swap_contract_address : Address
  fallback_swap_contract : Option Address
  decimals : Nat
  ticker : String
  gas_station_url : Option String
  gas_station_decimals : Nat
  gas_station_policy : GasStationPricePolicy
  web3 : Web3
  web3_instances : List Web3Instance
  history_sync_state : HistorySyncState
  ctx : Option MmCtx
  required_confirmations : Nat
  chain_id : Option Nat
  logs_block_range : Nat
  nonce_lock : Nat
  abortable_system : Nat

/-- Modelled from the spec: `ETH_DECIMALS` (defined in `eth.rs`, outside
the given sources) — the hard-coded decimals of the platform coin. -/
def ETH_DECIMALS : Nat := 18

/-- Modelled from the spec: `ETH_GAS_STATION_DECIMALS` (from `eth.rs`). -/
def ETH_GAS_STATION_DECIMALS : Nat := 9

/-- Modelled from the spec: `DEFAULT_REQUIRED_CONFIRMATIONS` (from
`eth.rs`) — the fixed numeric default confirmation count. -/
def DEFAULT_REQUIRED_CONFIRMATIONS : Nat := 1

/-- Modelled from the spec: `DEFAULT_LOGS_BLOCK_RANGE` (from `eth.rs`). -/
def DEFAULT_LOGS_BLOCK_RANGE : Nat := 1000

/-- Substring containment, as in Rust's `str::contains` with a string
pattern. -/
def containsSub (hay pat : String) : Bool :=
  (List.range (hay.data.length + 1)).any fun i => pat.data.isPrefixOf (hay.data.drop i)

/-- `build_address_and_priv_key_policy`. -/
def build_address_and_priv_key_policy (env : Env) (conf : CoinConf)
    (priv_key_policy : EthPrivKeyBuildPolicy) :
    Except EthActivationV2Error (Address × EthPrivKeyPolicy) :=
  match
    (match priv_key_policy with
     | .IguanaPrivKey iguana => Except.ok iguana
     | .GlobalHDAccount global_hd_ctx =>
       match conf.derivation_path with
       | none => Except.error EthActivationV2Error.DerivationPathIsNotSet
       | some s =>
         match env.parseDerivationPath s with
         | .error e => Except.error (EthActivationV2Error.ErrorDeserializingDerivationPath e)
         | .ok derivation_path =>
           match env.derive_secp256k1_secret global_hd_ctx derivation_path with
           | .error e => Except.error (EthActivationV2Error.InternalError e)
           | .ok secret => Except.ok secret) with
  | .error e => Except.error e
  | .ok raw_priv_key =>
    match env.keyPairFromSecretSlice raw_priv_key with
    | .error e => Except.error (EthActivationV2Error.InternalError e)
    | .ok key_pair => Except.ok (key_pair.address, EthPrivKeyPolicy.KeyPair key_pair)

/-- `build_single_http_transport`: an `HttpTransport` over the given
nodes whose gui-auth validation generator carries the coin ticker, the
signing secret and the address. -/
def build_single_http_transport (coin_ticker : String) (address : String)
    (key_pair : KeyPair) (nodes : List HttpTransportNode) : Web3Transport :=
  { nodes := nodes,
    gui_auth_validation_generator :=
      some { coin_ticker := coin_ticker, secret := key_pair.secret, address := address } }

/-- The URL-parsing loop of `build_http_transport`: parse each node URL
in order, failing with `InvalidPayload` at the first URL that does not
parse. -/
def parse_http_nodes (env : Env) : List EthNode →
    Except EthActivationV2Error (List HttpTransportNode)
| [] => Except.ok []
| node :: rest =>
  match env.parseUri node.url with
  | none => Except.error (EthActivationV2Error.InvalidPayload (node.url ++ " could not be parsed."))
  | some uri =>
    match parse_http_nodes env rest with
    | .error e => Except.error e
    | .ok tail => Except.ok ({ uri := uri, gui_auth := node.gui_auth } :: tail)

/-- The probing loop of `build_http_transport`: for each node, build a
single-endpoint client, ask its client version; on failure log and
continue, on success classify the server (`version.contains("Parity") ||
version.contains("parity")`) and keep the instance. -/
def probe_nodes (env : Env) (coin_ticker address : String) (key_pair : KeyPair) :
    List HttpTransportNode → List Web3Instance
| [] => []
| node :: rest =>
  let web3 : Web3 := ⟨build_single_http_transport coin_ticker address key_pair [node]⟩
  match env.client_version node with
  | none => probe_nodes env coin_ticker address key_pair rest
  | some version =>
    { web3 := web3,
      is_parity := containsSub version "Parity" || containsSub version "parity" } ::
      probe_nodes env coin_ticker address key_pair rest

/-- `build_http_transport`. -/
def build_http_transport (env : Env) (coin_ticker address : String)
    (key_pair : KeyPair) (eth_nodes : List EthNode) :
    Except EthActivationV2Error (Web3 × List Web3Instance) :=
  if eth_nodes.isEmpty then Except.error EthActivationV2Error.AtLeastOneNodeRequired
  else
    match parse_http_nodes env eth_nodes with
    | .error e => Except.error e
    | .ok parsed =>
      let http_nodes := env.shuffle parsed
      let web3_instances := probe_nodes env coin_ticker address key_pair http_nodes
      if web3_instances.isEmpty then
        Except.error (EthActivationV2Error.UnreachableNodes
          "Failed to get client version for all nodes")
      else
        Except.ok (⟨build_single_http_transport coin_ticker address key_pair http_nodes⟩,
          web3_instances)

/-- `eth_coin_from_conf_and_request_v2`, with the registry and scope
tree threaded explicitly; the returned `World` is the state after the
call, including any entry committed into `NONCE_LOCK`. -/
def eth_coin_from_conf_and_request_v2 (env : Env) (ctx : MmCtx) (ticker : String)
    (conf : CoinConf) (req : EthActivationV2Request)
    (priv_key_policy : EthPrivKeyBuildPolicy) (w : World) :
    Except EthActivationV2Error EthCoinImpl × World :=
  if req.swap_contract_address = 0 then
    (Except.error (EthActivationV2Error.InvalidSwapContractAddr
      "swap_contract_address can not be zero address"), w)
  else if req.fallback_swap_contract = some 0 then
    (Except.error (EthActivationV2Error.InvalidFallbackSwapContract
      "fallback_swap_contract can not be zero address"), w)
  else
    match build_address_and_priv_key_policy env conf priv_key_policy with
    | .error e => (Except.error e, w)
    | .ok (my_address, priv_key_policy) =>
      let my_address_str := env.checksum_address my_address
      match
        (match req.rpc_mode, priv_key_policy with
         | .Http, .KeyPair key_pair =>
           build_http_transport env ticker my_address_str key_pair req.nodes) with
      | .error e => (Except.error e, w)
      | .ok web3_pair =>
        let required_confirmations :=
          req.required_confirmations.getD
            (conf.required_confirmations.getD DEFAULT_REQUIRED_CONFIRMATIONS)
        let sign_message_pfx := conf.sign_message_pfx
        let acq := w.NONCE_LOCK.acquire ticker
        let nonce_lock := acq.1
        let w1 : World := { w with NONCE_LOCK := acq.2 }
        match w1.scopes.create_subsystem ctx.abortable_system with
        | .error _ => (Except.error (EthActivationV2Error.InternalError "aborted"), w1)
        | .ok sub =>
          (Except.ok {
            priv_key_policy := priv_key_policy,
            my_address := my_address,
            coin_type := EthCoinType.Eth,
            sign_message_pfx := sign_message_pfx,
            swap_contract_address := req.swap_contract_address,
            fallback_swap_contract := req.fallback_swap_contract,
            decimals := ETH_DECIMALS,
            ticker := ticker,
            gas_station_url := req.gas_station_url,
            gas_station_decimals := req.gas_station_decimals.getD ETH_GAS_STATION_DECIMALS,
            gas_station_policy := req.gas_station_policy,
            web3 := web3_pair.1,
            web3_instances := web3_pair.2,
            history_sync_state := HistorySyncState.NotEnabled,
            ctx := some ctx,
            required_confirmations := required_confirmations,
            chain_id := conf.chain_id,
            logs_block_range := conf.logs_block_range.getD DEFAULT_LOGS_BLOCK_RANGE,
            nonce_lock := nonce_lock,
            abortable_system := sub.1 }, { w1 with scopes := sub.2 })

/-- The ticker rewrite applied to each cloned transport in
`initialize_erc20_token`: if the transport has a gui-auth validation
generator, set its `coin_ticker` to the token ticker. -/
def rewrite_auth_ticker (ticker : String) (t : Web3Transport) : Web3Transport :=
  { t with gui_auth_validation_generator :=
      t.gui_auth_validation_generator.map fun auth => { auth with coin_ticker := ticker } }

/-- `EthCoin::initialize_erc20_token`, with the scope tree threaded
explicitly. -/
def initialize_erc20_token (env : Env) (self : EthCoinImpl)
    (activation_params : Erc20TokenActivationRequest) (protocol : Erc20Protocol)
    (ticker : String) (w : World) :
    Except Erc20TokenActivationError EthCoinImpl × World :=
  match self.ctx with
  | none => (Except.error (Erc20TokenActivationError.InternalError "No context"), w)
  | some ctx =>
    let conf := ctx.coin_conf ticker
    match
      (match conf.decimals with
       | none =>
         match env.get_token_decimals self.web3 protocol.token_addr with
         | .error e => Except.error (Erc20TokenActivationError.InternalError e)
         | .ok d => Except.ok d
       | some 0 =>
         match env.get_token_decimals self.web3 protocol.token_addr with
         | .error e => Except.error (Erc20TokenActivationError.InternalError e)
         | .ok d => Except.ok d
       | some (d + 1) => Except.ok ((d + 1) % 256)) with
    | .error e => (Except.error e, w)
    | .ok decimals =>
      let web3_instances := self.web3_instances.map fun node =>
        { web3 := ⟨rewrite_auth_ticker ticker node.web3.transport⟩,
          is_parity := node.is_parity }
      let web3 : Web3 := ⟨rewrite_auth_ticker ticker self.web3.transport⟩
      let required_confirmations :=
        activation_params.required_confirmations.getD
          (conf.required_confirmations.getD 1)
      match w.scopes.create_subsystem ctx.abortable_system with
      | .error _ => (Except.error (Erc20TokenActivationError.InternalError "aborted"), w)
      | .ok sub =>
        (Except.ok {
          priv_key_policy := self.priv_key_policy,
          my_address := self.my_address,
          coin_type := EthCoinType.Erc20 protocol.platform protocol.token_addr,
          sign_message_pfx := self.sign_message_pfx,
          swap_contract_address := self.swap_contract_address,
          fallback_swap_contract := self.fallback_swap_contract,
          decimals := decimals,
          ticker := ticker,
          gas_station_url := self.gas_station_url,
          gas_station_decimals := self.gas_station_decimals,
          gas_station_policy := self.gas_station_policy,
          web3 := web3,
          web3_instances := web3_instances,
          history_sync_state := self.history_sync_state,
          ctx := self.ctx,
          required_confirmations := required_confirmations,
          chain_id := self.chain_id,
          logs_block_range := self.logs_block_range,
          nonce_lock := self.nonce_lock,
          abortable_system := sub.1 }, { w with scopes := sub.2 })

/-! ## Derived definitions and concrete instances used by the
verification -/

/-- The number of parsed endpoints that answer the client-version
probe. -/
def liveCount (env : Env) (nodes : List HttpTransportNode) : Nat :=
  nodes.countP fun n => (env.client_version n).isSome

/-- ASCII lower-casing of a character. -/
def lowerAscii (c : Char) : Char :=
  if 65 ≤ c.toNat ∧ c.toNat ≤ 90 then Char.ofNat (c.toNat + 32) else c

/-- ASCII lower-casing of a string. -/
def lowerAsciiStr (s : String) : String := ⟨s.data.map lowerAscii⟩

/-- The classification described by the spec's words: the version
string contains "parity" under any letter casing (case-insensitive
containment). Stated for comparison against the classification the
code performs. -/
def spec_is_parity (v : String) : Bool := containsSub (lowerAsciiStr v) "parity"

/-- Extract the payload of a successful result, with a fallback. -/
def getOkD {ε α : Type} (d : α) : Except ε α → α
| .ok a => a
| .error _ => d

/-- A placeholder coin used only as the `getOkD` fallback. -/
def dummyCoin : EthCoinImpl :=
  { priv_key_policy := .KeyPair ⟨0, 0⟩, my_address := 0, coin_type := .Eth,
    sign_message_pfx := none, swap_contract_address := 0, fallback_swap_contract := none,
    decimals := 0, ticker := "", gas_station_url := none, gas_station_decimals := 0,
    gas_station_policy := .MeanGasPrice, web3 := ⟨⟨[], none⟩⟩, web3_instances := [],
    history_sync_state := .NotEnabled, ctx := none, required_confirmations := 0,
    chain_id := none, logs_block_range := 0, nonce_lock := 0, abortable_system := 0 }

/-- A concrete oracle environment: every URL parses to itself, the
shuffle is the identity permutation, every node reports a Geth version
string, a key pair derived from a secret list has the list head as its
address, and the on-chain decimals query reports 8. -/
def envW : Env :=
  { parseUri := fun s => some s,
    shuffle := fun l => l,
    client_version := fun _ => some "Geth/v1.10.25",
    keyPairFromSecretSlice := fun s => Except.ok { secret := 0, address := s.headD 0 },
    checksum_address := fun a => toString a,
    parseDerivationPath := fun _ => Except.error "unused",
    derive_secp256k1_secret := fun _ _ => Except.error "unused",
    get_token_decimals := fun _ _ => Except.ok 8 }

/-- A concrete config with every optional field absent. -/
def confW : CoinConf :=
  { decimals := none, required_confirmations := none, chain_id := none,
    logs_block_range := none, sign_message_pfx := none, derivation_path := none }

/-- A concrete context whose root abortable-system scope is 0. -/
def ctxW : MmCtx := { coin_conf := fun _ => confW, abortable_system := 0 }

/-- The initial world: empty nonce registry, a scope forest containing
only the root scope 0. -/
def worldW : World := { NONCE_LOCK := ⟨[], 0⟩, scopes := ⟨[], [], 1⟩ }

/-- A concrete well-formed activation request with one node. -/
def reqW : EthActivationV2Request :=
  { nodes := [⟨"nodeone", false⟩], rpc_mode := .Http, swap_contract_address := 7,
    fallback_swap_contract := none, gas_station_url := none, gas_station_decimals := none,
    gas_station_policy := .MeanGasPrice, mm2 := none, required_confirmations := none,
    priv_key_policy := .ContextPrivKey }

/-- First platform activation: ticker "ETH", secret resolving to
address 1. -/
def C1run1 : Except EthActivationV2Error EthCoinImpl × World :=
  eth_coin_from_conf_and_request_v2 envW ctxW "ETH" confW reqW (.IguanaPrivKey [1]) worldW

/-- Second platform activation on the resulting world: same ticker
"ETH", secret resolving to address 2. -/
def C1run2 : Except EthActivationV2Error EthCoinImpl × World :=
  eth_coin_from_conf_and_request_v2 envW ctxW "ETH" confW reqW (.IguanaPrivKey [2]) C1run1.2

/-- The first activation's coin. -/
def C1c1 : EthCoinImpl := getOkD dummyCoin C1run1.1

/-- The second activation's coin. -/
def C1c2 : EthCoinImpl := getOkD dummyCoin C1run2.1

/-- A token derivation from the first platform coin. -/
def tokRunW : Except Erc20TokenActivationError EthCoinImpl × World :=
  initialize_erc20_token envW C1c1 ⟨none⟩ ⟨"ETH", 5⟩ "USDT" C1run1.2

/-- The derived token coin. -/
def tokCW : EthCoinImpl := getOkD dummyCoin tokRunW.1

/-- A world whose root scope 0 has already been aborted. -/
def C2worldAborted : World := { NONCE_LOCK := ⟨[], 0⟩, scopes := ⟨[], [0], 1⟩ }

/-- Platform activation attempted against the aborted world. -/
def C2run : Except EthActivationV2Error EthCoinImpl × World :=
  eth_coin_from_conf_and_request_v2 envW ctxW "ETH" confW reqW (.IguanaPrivKey [1]) C2worldAborted

/-- An environment whose probed nodes report the version string
"PARITY" (upper-case). -/
def C5envUpper : Env := { envW with client_version := fun _ => some "PARITY" }

/-- A concrete probed node. -/
def C5node : HttpTransportNode := ⟨"nodeone", false⟩

/-- An environment where only the node with uri "one" is live. -/
def C3env : Env :=
  { envW with client_version := fun n => if n.uri = "one" then some "Geth/v1" else none }

/-- Two configured nodes, of which only the first is live under
`C3env`. -/
def C3nodes : List EthNode := [⟨"one", false⟩, ⟨"two", false⟩]

/-- An environment where the URL "badurl" does not parse. -/
def C9env : Env :=
  { envW with parseUri := fun s => if s = "badurl" then none else some s }

/-- A node list whose second entry has an unparsable URL. -/
def C9nodes : List EthNode := [⟨"one", false⟩, ⟨"badurl", false⟩]

/-- A config giving the token 300 decimals (wraps to 44 as a `u8`). -/
def confT300 : CoinConf := { confW with decimals := some 300 }

/-- A context serving `confT300` for every ticker. -/
def ctxT300 : MmCtx := { coin_conf := fun _ => confT300, abortable_system := 0 }

/-- A platform coin holding a live reference to `ctxT300`. -/
def selfT300 : EthCoinImpl := { dummyCoin with ctx := some ctxT300 }

/-- An environment whose on-chain decimals query always fails. -/
def C10env : Env := { envW with get_token_decimals := fun _ _ => Except.error "down" }

/-- Token derivation whose config decimals are 300, against an
environment whose on-chain decimals query always fails. -/
def C10run : Except Erc20TokenActivationError EthCoinImpl × World :=
  initialize_erc20_token C10env selfT300 ⟨none⟩ ⟨"ETH", 5⟩ "TKN" worldW

/-- The token coin produced by `C10run`. -/
def C10tok : EthCoinImpl := getOkD dummyCoin C10run.1

/-! ## Characterization lemmas -/

theorem platform_ok_spec {env : Env} {ctx : MmCtx} {ticker : String} {conf : CoinConf}
    {req : EthActivationV2Request} {pol : EthPrivKeyBuildPolicy} {w : World}
    {c : EthCoinImpl} {w2 : World}
    (h : eth_coin_from_conf_and_request_v2 env ctx ticker conf req pol w = (Except.ok c, w2)) :
    c.ticker = ticker ∧
    c.decimals = ETH_DECIMALS ∧
    c.required_confirmations =
      req.required_confirmations.getD
        (conf.required_confirmations.getD DEFAULT_REQUIRED_CONFIRMATIONS) ∧
    c.nonce_lock = (w.NONCE_LOCK.acquire ticker).1 ∧
    c.ctx = some ctx ∧
    c.abortable_system = w.scopes.next ∧
    w2.NONCE_LOCK = (w.NONCE_LOCK.acquire ticker).2 ∧
    w2.scopes.parentOf = (w.scopes.next, ctx.abortable_system) :: w.scopes.parentOf ∧
    w2.scopes.aborted = w.scopes.aborted ∧
    w2.scopes.next = w.scopes.next + 1 := by
  unfold eth_coin_from_conf_and_request_v2 at h
  split at h
  · simp at h
  split at h
  · simp at h
  split at h
  · simp at h
  split at h
  dsimp only at h
  split at h
  · simp at h
  split at h
  · simp at h
  rename_i sub hsub
  unfold ScopeForest.create_subsystem at hsub
  split at hsub
  · simp at hsub
  injection hsub with hsub
  subst hsub
  injection h with h1 h2
  injection h1 with h1
  subst h1
  subst h2
  simp

/-- C2 (amended): the nonce-handle acquisition is NOT after the last
fallible step — the cancellation-subsystem creation that follows it can
fail. Precisely: whenever platform activation returns an error, either
the world (including the shared `NONCE_LOCK` registry) is completely
unchanged (the error arose before the nonce acquisition), or the error
is the internal error from the cancellation-subsystem creation and then
the registry retains the committed entry for the ticker while the scope
tree is unchanged. No step after the subsystem creation can fail. -/
theorem C2_nonce_commit_boundary {env : Env} {ctx : MmCtx} {ticker : String} {conf : CoinConf}
    {req : EthActivationV2Request} {pol : EthPrivKeyBuildPolicy} {w : World}
    {e : EthActivationV2Error} {w2 : World}
    (h : eth_coin_from_conf_and_request_v2 env ctx ticker conf req pol w = (Except.error e, w2)) :
    w2 = w ∨
    (e = EthActivationV2Error.InternalError "aborted" ∧
     w.scopes.create_subsystem ctx.abortable_system = Except.error () ∧
     w2 = { NONCE_LOCK := (w.NONCE_LOCK.acquire ticker).2, scopes := w.scopes }) := by
  unfold eth_coin_from_conf_and_request_v2 at h
  split at h
  · injection h with h1 h2
    exact Or.inl h2.symm
  split at h
  · injection h with h1 h2
    exact Or.inl h2.symm
  split at h
  · injection h with h1 h2
    exact Or.inl h2.symm
  split at h
  dsimp only at h
  split at h
  · injection h with h1 h2
    exact Or.inl h2.symm
  split at h
  · rename_i a hsub
    injection h with h1 h2
    injection h1 with h1
    refine Or.inr ⟨h1.symm, ?_, h2.symm⟩
    cases a
    exact hsub
  · simp at h

theorem token_ok_spec {env : Env} {self : EthCoinImpl} {ctx : MmCtx}
    {par : Erc20TokenActivationRequest} {proto : Erc20Protocol} {tk : String}
    {w : World} {tok : EthCoinImpl} {w2 : World}
    (hctx : self.ctx = some ctx)
    (h : initialize_erc20_token env self par proto tk w = (Except.ok tok, w2)) :
    tok.priv_key_policy = self.priv_key_policy ∧
    tok.my_address = self.my_address ∧
    tok.coin_type = EthCoinType.Erc20 proto.platform proto.token_addr ∧
    tok.sign_message_pfx = self.sign_message_pfx ∧
    tok.swap_contract_address = self.swap_contract_address ∧
    tok.fallback_swap_contract = self.fallback_swap_contract ∧
    tok.ticker = tk ∧
    tok.gas_station_url = self.gas_station_url ∧
    tok.gas_station_decimals = self.gas_station_decimals ∧
    tok.gas_station_policy = self.gas_station_policy ∧
    tok.web3 = ⟨rewrite_auth_ticker tk self.web3.transport⟩ ∧
    tok.web3_instances = self.web3_instances.map (fun node =>
      { web3 := ⟨rewrite_auth_ticker tk node.web3.transport⟩, is_parity := node.is_parity }) ∧
    tok.history_sync_state = self.history_sync_state ∧
    tok.ctx = self.ctx ∧
    tok.required_confirmations =
      par.required_confirmations.getD (((ctx.coin_conf tk).required_confirmations).getD 1) ∧
    tok.chain_id = self.chain_id ∧
    tok.logs_block_range = self.logs_block_range ∧
    tok.nonce_lock = self.nonce_lock ∧
    tok.abortable_system = w.scopes.next ∧
    (∀ d : Nat, (ctx.coin_conf tk).decimals = some (d + 1) → tok.decimals = (d + 1) % 256) ∧
    w2.NONCE_LOCK = w.NONCE_LOCK ∧
    w2.scopes.parentOf = (w.scopes.next, ctx.abortable_system) :: w.scopes.parentOf ∧
    w2.scopes.aborted = w.scopes.aborted ∧
    w2.scopes.next = w.scopes.next + 1 := by
  unfold initialize_erc20_token at h
  rw [hctx] at h
  dsimp only at h
  split at h
  · simp at h
  rename_i decimals hdec
  split at h
  · simp at h
  rename_i sub hsub
  unfold ScopeForest.create_subsystem at hsub
  split at hsub
  · simp at hsub
  injection hsub with hsub
  subst hsub
  injection h with h1 h2
  injection h1 with h1
  subst h1
  subst h2
  refine ⟨rfl, rfl, rfl, rfl, rfl, rfl, rfl, rfl, rfl, rfl, rfl, rfl, rfl, hctx.symm ▸ rfl,
    rfl, rfl, rfl, rfl, rfl, ?_, rfl, rfl, rfl, rfl⟩
  intro d hd
  rw [hd] at hdec
  dsimp only at hdec
  injection hdec with hdec
  exact hdec.symm

/-! ## Nonce-registry lemmas -/

theorem lookup_mem {α β : Type} [BEq α] [LawfulBEq α] :
    ∀ {l : List (α × β)} {k : α} {v : β},
    l.lookup k = some v → (k, v) ∈ l := by
  intro l
  induction l with
  | nil => intro k v h; simp at h
  | cons p rest ih =>
    intro k v h
    rcases p with ⟨pk, pv⟩
    rw [List.lookup_cons] at h
    cases hk : k == pk with
    | true =>
      rw [hk] at h
      injection h with h
      have hkp : k = pk := by simpa using hk
      subst hkp
      subst h
      exact List.mem_cons_self _ _
    | false =>
      rw [hk] at h
      exact List.mem_cons_of_mem _ (ih h)

theorem mem_snd_injective {l : List (String × Nat)} (hnd : (l.map Prod.snd).Nodup)
    {t1 t2 : String} {v : Nat} (m1 : (t1, v) ∈ l) (m2 : (t2, v) ∈ l) : t1 = t2 := by
  induction l with
  | nil => simp at m1
  | cons p rest ih =>
    simp only [List.map_cons, List.nodup_cons] at hnd
    rcases List.mem_cons.1 m1 with h1 | h1 <;> rcases List.mem_cons.1 m2 with h2 | h2
    · rw [← h2] at h1
      exact congrArg Prod.fst h1
    · subst h1
      exact absurd (List.mem_map_of_mem Prod.snd h2) hnd.1
    · subst h2
      exact absurd (List.mem_map_of_mem Prod.snd h1) hnd.1
    · exact ih hnd.2 h1 h2

/-- Acquiring the same key twice in sequence returns the same handle:
the registry is idempotent per key. -/
theorem acquire_same_key (r : NonceRegistry) (t : String) :
    (((r.acquire t).2).acquire t).1 = (r.acquire t).1 := by
  unfold NonceRegistry.acquire
  cases hl : r.entries.lookup t with
  | some h => simp [hl]
  | none => simp [hl, List.lookup_cons]

/-- Acquiring two distinct keys in sequence from a well-formed registry
returns distinct handles. -/
theorem acquire_ne_key {r : NonceRegistry} (hWF : r.WF) {t1 t2 : String} (hne : t1 ≠ t2) :
    (((r.acquire t1).2).acquire t2).1 ≠ (r.acquire t1).1 := by
  obtain ⟨-, hsnd, hlt⟩ := hWF
  unfold NonceRegistry.acquire
  cases hl1 : r.entries.lookup t1 with
  | some h1 =>
    cases hl2 : r.entries.lookup t2 with
    | some h2 =>
      simp only [hl1, hl2]
      intro hcontra
      exact hne (mem_snd_injective hsnd (lookup_mem hl1) (hcontra ▸ lookup_mem hl2))
    | none =>
      simp only [hl1, hl2]
      exact Nat.ne_of_gt (hlt _ (lookup_mem hl1))
  | none =>
    simp only [hl1]
    have hstep : ((t1, r.next) :: r.entries).lookup t2 = r.entries.lookup t2 := by
      have hb : (t2 == t1) = false := by simpa using fun hc => hne hc.symm
      rw [List.lookup_cons, hb]
    cases hl2 : r.entries.lookup t2 with
    | some h2 =>
      simp only [hstep, hl2]
      exact Nat.ne_of_lt (hlt _ (lookup_mem hl2))
    | none =>
      simp only [hstep, hl2]
      omega

/-! ## Scope-forest lemmas -/

theorem scope_ancestors_lt {f : ScopeForest} (hWF : f.WF) :
    ∀ (fuel s a : Nat), a ∈ f.ancestors fuel s → a < s := by
  intro fuel
  induction fuel with
  | zero => intro s a ha; simp [ScopeForest.ancestors] at ha
  | succ n ih =>
    intro s a ha
    unfold ScopeForest.ancestors at ha
    cases hl : f.parentOf.lookup s with
    | none => rw [hl] at ha; simp at ha
    | some p =>
      rw [hl] at ha
      have hp : p < s := (hWF _ (lookup_mem hl)).1
      rcases List.mem_cons.1 ha with h | h
      · exact h ▸ hp
      · exact lt_trans (ih p a h) hp

/-! ## Transport-construction lemmas -/

theorem probe_nodes_length (env : Env) (t a : String) (kp : KeyPair) :
    ∀ l : List HttpTransportNode,
    (probe_nodes env t a kp l).length = liveCount env l := by
  intro l
  induction l with
  | nil => rfl
  | cons n rest ih =>
    unfold probe_nodes liveCount
    cases hv : env.client_version n <;>
      simp_all [liveCount, List.countP_cons, hv]

theorem parse_http_nodes_length {env : Env} :
    ∀ {l : List EthNode} {parsed : List HttpTransportNode},
    parse_http_nodes env l = Except.ok parsed → parsed.length = l.length := by
  intro l
  induction l with
  | nil =>
    intro parsed h
    unfold parse_http_nodes at h
    injection h with h
    subst h
    rfl
  | cons n rest ih =>
    intro parsed h
    unfold parse_http_nodes at h
    cases hp : env.parseUri n.url with
    | none => rw [hp] at h; simp at h
    | some uri =>
      rw [hp] at h
      cases hrest : parse_http_nodes env rest with
      | error e => rw [hrest] at h; simp at h
      | ok tail =>
        rw [hrest] at h
        injection h with h
        subst h
        simp [ih hrest]

theorem parse_http_nodes_error {env : Env} :
    ∀ {l : List EthNode} {bad : EthNode}, bad ∈ l → env.parseUri bad.url = none →
    ∃ u : String, parse_http_nodes env l =
      Except.error (EthActivationV2Error.InvalidPayload (u ++ " could not be parsed.")) := by
  intro l
  induction l with
  | nil => intro bad h; simp at h
  | cons n rest ih =>
    intro bad hmem hbad
    unfold parse_http_nodes
    cases hp : env.parseUri n.url with
    | none => exact ⟨n.url, rfl⟩
    | some uri =>
      rcases List.mem_cons.1 hmem with heq | hmem2
      · rw [heq, hp] at hbad
        cases hbad
      · obtain ⟨u, hu⟩ := ih hmem2 hbad
        rw [hu]
        exact ⟨u, rfl⟩

/-! ## Claim theorems -/

/-- C1 (counterexample): two platform activations with the same ticker
"ETH" but different resolved account addresses (1 and 2) both succeed
and receive the SAME nonce handle from the registry — refuting that two
coins with different resolved addresses receive distinct handles; the
registry is keyed by ticker, not by account address. -/
theorem C1_counterexample :
    C1run1.1 = Except.ok C1c1 ∧ C1run2.1 = Except.ok C1c2 ∧
    C1c1.my_address ≠ C1c2.my_address ∧ C1c1.nonce_lock = C1c2.nonce_lock :=
  ⟨rfl, rfl, by decide, rfl⟩

/-- C1 (amended): the registry lookup-or-insert is keyed by asset
ticker, not by account address: two platform coins activated with the
same ticker receive reference-identical nonce handles regardless of
their resolved addresses; two coins with different tickers receive
distinct handles (given a well-formed registry); and a token derived
from a platform coin receives the platform coin's handle verbatim by
cloning, not through a registry lookup. -/
theorem C1_registry_keyed_by_ticker {env1 env2 : Env} {ctx1 ctx2 : MmCtx}
    {t1 t2 : String} {conf1 conf2 : CoinConf}
    {req1 req2 : EthActivationV2Request} {p1 p2 : EthPrivKeyBuildPolicy}
    {w0 w1 w2 : World} {c1 c2 : EthCoinImpl}
    (h1 : eth_coin_from_conf_and_request_v2 env1 ctx1 t1 conf1 req1 p1 w0 = (Except.ok c1, w1))
    (h2 : eth_coin_from_conf_and_request_v2 env2 ctx2 t2 conf2 req2 p2 w1 = (Except.ok c2, w2)) :
    (t1 = t2 → c1.nonce_lock = c2.nonce_lock) ∧
    (w0.NONCE_LOCK.WF → t1 ≠ t2 → c1.nonce_lock ≠ c2.nonce_lock) ∧
    (∀ (envT : Env) (par : Erc20TokenActivationRequest) (proto : Erc20Protocol)
       (tk : String) (wT wT2 : World) (tok : EthCoinImpl),
       initialize_erc20_token envT c1 par proto tk wT = (Except.ok tok, wT2) →
       tok.nonce_lock = c1.nonce_lock) := by
  obtain ⟨-, -, -, hn1, hctx1, -, hreg1, -, -, -⟩ := platform_ok_spec h1
  obtain ⟨-, -, -, hn2, -, -, -, -, -, -⟩ := platform_ok_spec h2
  refine ⟨?_, ?_, ?_⟩
  · intro hteq
    subst hteq
    rw [hn1, hn2, hreg1]
    exact (acquire_same_key _ _).symm
  · intro hWF hne hcontra
    rw [hn1, hn2, hreg1] at hcontra
    exact acquire_ne_key hWF hne hcontra.symm
  · intro envT par proto tk wT wT2 tok htok
    obtain ⟨-, -, -, -, -, -, -, -, -, -, -, -, -, -, -, -, -, hnl, -, -, -, -, -, -⟩ :=
      token_ok_spec hctx1 htok
    exact hnl

/-- C1 witness: the amended claim applied to the two concrete "ETH"
activations and the concrete token derivation. -/
theorem C1_registry_keyed_by_ticker_witness :
    ("ETH" = "ETH" → C1c1.nonce_lock = C1c2.nonce_lock) ∧
    (worldW.NONCE_LOCK.WF → "ETH" ≠ "ETH" → C1c1.nonce_lock ≠ C1c2.nonce_lock) ∧
    (∀ (envT : Env) (par : Erc20TokenActivationRequest) (proto : Erc20Protocol)
       (tk : String) (wT wT2 : World) (tok : EthCoinImpl),
       initialize_erc20_token envT C1c1 par proto tk wT = (Except.ok tok, wT2) →
       tok.nonce_lock = C1c1.nonce_lock) :=
  @C1_registry_keyed_by_ticker envW envW ctxW ctxW "ETH" "ETH" confW confW reqW reqW
    (.IguanaPrivKey [1]) (.IguanaPrivKey [2]) worldW C1run1.2 C1run2.2 C1c1 C1c2 rfl rfl

/-- C2 (counterexample): activating against a world whose root scope is
already aborted returns an error, yet the shared registry has gained the
"ETH" entry — refuting that an activation error implies no entry was
committed into the nonce registry. -/
theorem C2_counterexample :
    C2run.1 = Except.error (EthActivationV2Error.InternalError "aborted") ∧
    C2worldAborted.NONCE_LOCK.entries = [] ∧
    C2run.2.NONCE_LOCK.entries = [("ETH", 0)] :=
  ⟨rfl, rfl, rfl⟩

/-- C2 witness: the amended claim applied to the concrete late-failing
activation (the cancellation-subsystem creation fails after the nonce
acquisition). -/
theorem C2_nonce_commit_boundary_witness :
    C2run.2 = C2worldAborted ∨
    (EthActivationV2Error.InternalError "aborted" = EthActivationV2Error.InternalError "aborted" ∧
     C2worldAborted.scopes.create_subsystem ctxW.abortable_system = Except.error () ∧
     C2run.2 = { NONCE_LOCK := (C2worldAborted.NONCE_LOCK.acquire "ETH").2,
                 scopes := C2worldAborted.scopes }) :=
  @C2_nonce_commit_boundary envW ctxW "ETH" confW reqW (.IguanaPrivKey [1]) C2worldAborted
    (EthActivationV2Error.InternalError "aborted") C2run.2 rfl

/-- C3 (confirmed): in HTTP mode with N configured endpoints whose URLs
all parse, if K of them answer the client-version probe then: for K > 0
activation succeeds, the live-node client list has length exactly K, and
the broadcast-capable composite client is built over all N configured
endpoints (its node list is a permutation of the parsed configured
nodes, of length N); for K = 0 it fails with `UnreachableNodes`. -/
theorem C3_http_liveness {env : Env} {ticker address : String} {kp : KeyPair}
    {eth_nodes : List EthNode} {parsed : List HttpTransportNode}
    (hne : eth_nodes ≠ [])
    (hparse : parse_http_nodes env eth_nodes = Except.ok parsed)
    (hperm : ∀ l, (env.shuffle l).Perm l) :
    (0 < liveCount env parsed →
      ∃ pr : Web3 × List Web3Instance,
        build_http_transport env ticker address kp eth_nodes = Except.ok pr ∧
        pr.2.length = liveCount env parsed ∧
        pr.1.transport.nodes.length = eth_nodes.length ∧
        pr.1.transport.nodes.Perm parsed) ∧
    (liveCount env parsed = 0 →
      build_http_transport env ticker address kp eth_nodes =
        Except.error (EthActivationV2Error.UnreachableNodes
          "Failed to get client version for all nodes")) := by
  have hlenp : parsed.length = eth_nodes.length := parse_http_nodes_length hparse
  have hcount : liveCount env (env.shuffle parsed) = liveCount env parsed :=
    (hperm parsed).countP_eq _
  have hplen : (probe_nodes env ticker address kp (env.shuffle parsed)).length
      = liveCount env parsed := by rw [probe_nodes_length, hcount]
  unfold build_http_transport
  rw [if_neg (by simp [List.isEmpty_iff, hne]), hparse]
  dsimp only
  constructor
  · intro hpos
    rw [if_neg (by simp only [List.isEmpty_iff, ← List.length_eq_zero, hplen]; omega)]
    refine ⟨_, rfl, hplen, ?_, hperm parsed⟩
    show (env.shuffle parsed).length = eth_nodes.length
    rw [(hperm parsed).length_eq, hlenp]
  · intro h0
    rw [if_pos (by simp only [List.isEmpty_iff, ← List.length_eq_zero, hplen]; omega)]

/-- C3 witness: the claim applied to two concrete configured endpoints
of which exactly one is live. -/
theorem C3_http_liveness_witness :
    (0 < liveCount C3env [⟨"one", false⟩, ⟨"two", false⟩] →
      ∃ pr : Web3 × List Web3Instance,
        build_http_transport C3env "ETH" "1" ⟨0, 0⟩ C3nodes = Except.ok pr ∧
        pr.2.length = liveCount C3env [⟨"one", false⟩, ⟨"two", false⟩] ∧
        pr.1.transport.nodes.length = C3nodes.length ∧
        pr.1.transport.nodes.Perm [⟨"one", false⟩, ⟨"two", false⟩]) ∧
    (liveCount C3env [⟨"one", false⟩, ⟨"two", false⟩] = 0 →
      build_http_transport C3env "ETH" "1" ⟨0, 0⟩ C3nodes =
        Except.error (EthActivationV2Error.UnreachableNodes
          "Failed to get client version for all nodes")) :=
  @C3_http_liveness C3env "ETH" "1" ⟨0, 0⟩ C3nodes [⟨"one", false⟩, ⟨"two", false⟩]
    (by decide) rfl (fun l => List.Perm.refl l)

/-- C5 (counterexample): a node reporting the version string "PARITY"
is NOT marked as the Parity implementation by the probing loop, even
though "PARITY" contains "parity" case-insensitively — refuting that
the classification is case-insensitive. -/
theorem C5_counterexample :
    (probe_nodes C5envUpper "ETH" "1" ⟨0, 0⟩ [C5node]).map Web3Instance.is_parity = [false] ∧
    spec_is_parity "PARITY" = true := by
  decide

/-- C5 (amended): during probing a node whose version string is `v` is
marked as the Parity implementation exactly when `v` contains "Parity"
or "parity" as a literal (case-sensitive) substring. -/
theorem C5_parity_classification {env : Env} (t a : String) (kp : KeyPair)
    {nodes : List HttpTransportNode} {n : HttpTransportNode} {v : String}
    (hmem : n ∈ nodes) (hv : env.client_version n = some v) :
    ({ web3 := ⟨build_single_http_transport t a kp [n]⟩,
       is_parity := containsSub v "Parity" || containsSub v "parity" } : Web3Instance) ∈
      probe_nodes env t a kp nodes := by
  induction nodes with
  | nil => simp at hmem
  | cons m rest ih =>
    rcases List.mem_cons.1 hmem with heq | hmem2
    · subst heq
      unfold probe_nodes
      rw [hv]
      exact List.mem_cons_self _ _
    · unfold probe_nodes
      cases hm : env.client_version m with
      | none => exact ih hmem2
      | some vm => exact List.mem_cons_of_mem _ (ih hmem2)

/-- C5 witness: the amended classification applied to a concrete node
reporting a Geth version string. -/
theorem C5_parity_classification_witness :
    ({ web3 := ⟨build_single_http_transport "ETH" "1" ⟨0, 0⟩ [C5node]⟩,
       is_parity := containsSub "Geth/v1.10.25" "Parity" ||
         containsSub "Geth/v1.10.25" "parity" } : Web3Instance) ∈
      probe_nodes envW "ETH" "1" ⟨0, 0⟩ [C5node] :=
  @C5_parity_classification envW "ETH" "1" ⟨0, 0⟩ [C5node] C5node "Geth/v1.10.25"
    (by decide) rfl

/-- C6 (confirmed): for both the platform and the token activation, the
resolved `required_confirmations` is the request value when present,
else the config value when present, else the fixed numeric default
(`DEFAULT_REQUIRED_CONFIRMATIONS` for the platform, the literal 1 for
the token); the request value always overrides the config value. -/
theorem C6_required_confirmations_override {env : Env} {ctx : MmCtx} {ticker : String}
    {conf : CoinConf} {req : EthActivationV2Request} {pol : EthPrivKeyBuildPolicy}
    {w : World} {c : EthCoinImpl} {w2 : World}
    {envT : Env} {self : EthCoinImpl} {ctxT : MmCtx} {par : Erc20TokenActivationRequest}
    {proto : Erc20Protocol} {tk : String} {wT : World} {tok : EthCoinImpl} {wT2 : World}
    (h : eth_coin_from_conf_and_request_v2 env ctx ticker conf req pol w = (Except.ok c, w2))
    (hctx : self.ctx = some ctxT)
    (h2 : initialize_erc20_token envT self par proto tk wT = (Except.ok tok, wT2)) :
    c.required_confirmations =
      req.required_confirmations.getD
        (conf.required_confirmations.getD DEFAULT_REQUIRED_CONFIRMATIONS) ∧
    tok.required_confirmations =
      par.required_confirmations.getD (((ctxT.coin_conf tk).required_confirmations).getD 1) := by
  refine ⟨(platform_ok_spec h).2.2.1, ?_⟩
  obtain ⟨-, -, -, -, -, -, -, -, -, -, -, -, -, -, hrc, -, -, -, -, -, -, -, -, -⟩ :=
    token_ok_spec hctx h2
  exact hrc

/-- C6 witness: the override law applied to the concrete platform
activation and token derivation. -/
theorem C6_required_confirmations_override_witness :
    C1c1.required_confirmations =
      reqW.required_confirmations.getD
        (confW.required_confirmations.getD DEFAULT_REQUIRED_CONFIRMATIONS) ∧
    tokCW.required_confirmations =
      (⟨none⟩ : Erc20TokenActivationRequest).required_confirmations.getD
        (((ctxW.coin_conf "USDT").required_confirmations).getD 1) :=
  @C6_required_confirmations_override envW ctxW "ETH" confW reqW (.IguanaPrivKey [1]) worldW
    C1c1 C1run1.2 envW C1c1 ctxW ⟨none⟩ ⟨"ETH", 5⟩ "USDT" C1run1.2 tokCW tokRunW.2 rfl rfl rfl

/-- C9 (confirmed): in HTTP mode, if any configured node URL fails to
parse, `build_http_transport` fails with `InvalidPayload` — regardless
of how many other URLs are valid or live; the skip-and-continue
tolerance applies only to the liveness probe. -/
theorem C9_invalid_url_aborts {env : Env} {ticker address : String} {kp : KeyPair}
    {eth_nodes : List EthNode} {bad : EthNode}
    (hmem : bad ∈ eth_nodes) (hbad : env.parseUri bad.url = none) :
    ∃ u : String, build_http_transport env ticker address kp eth_nodes =
      Except.error (EthActivationV2Error.InvalidPayload (u ++ " could not be parsed.")) := by
  have hne : eth_nodes ≠ [] := by
    intro hl
    subst hl
    simp at hmem
  obtain ⟨u, hu⟩ := parse_http_nodes_error hmem hbad
  refine ⟨u, ?_⟩
  unfold build_http_transport
  rw [if_neg (by simp [List.isEmpty_iff, hne]), hu]

/-- C9 witness: the claim applied to a concrete pair of nodes whose
second URL does not parse while the first is valid and live. -/
theorem C9_invalid_url_aborts_witness :
    (⟨"badurl", false⟩ : EthNode) ∈ C9nodes ∧
    C9env.parseUri "badurl" = none ∧
    (∃ u : String, build_http_transport C9env "ETH" "1" ⟨0, 0⟩ C9nodes =
      Except.error (EthActivationV2Error.InvalidPayload (u ++ " could not be parsed."))) :=
  ⟨by decide, rfl,
    @C9_invalid_url_aborts C9env "ETH" "1" ⟨0, 0⟩ C9nodes ⟨"badurl", false⟩ (by decide) rfl⟩

/-- C4 (counterexample): for a concrete platform activation followed by
a token derivation, cancelling the platform coin's scope does NOT
terminate the token's background tasks — refuting that the token's scope
is nested under the platform's. -/
theorem C4_counterexample :
    C1run1.1 = Except.ok C1c1 ∧ tokRunW.1 = Except.ok tokCW ∧
    cancelTerminates tokRunW.2.scopes C1c1.abortable_system tokCW.abortable_system = false :=
  ⟨rfl, rfl, by decide⟩

/-- C4 (amended): the token's cancellation scope is NOT nested under the
platform coin's scope: both are created as children of the daemon root
scope. Hence cancelling the platform coin's scope does not terminate
the token's background tasks and cancelling the token's scope does not
terminate the platform's, while cancelling the daemon root scope
terminates both. -/
theorem C4_scope_siblings {env1 envT : Env} {ctx : MmCtx} {ticker : String} {conf : CoinConf}
    {req : EthActivationV2Request} {pol : EthPrivKeyBuildPolicy} {w0 w1 w2 : World}
    {c tok : EthCoinImpl} {par : Erc20TokenActivationRequest} {proto : Erc20Protocol}
    {tk : String}
    (hWF : w0.scopes.WF) (hroot : ctx.abortable_system < w0.scopes.next)
    (h1 : eth_coin_from_conf_and_request_v2 env1 ctx ticker conf req pol w0 = (Except.ok c, w1))
    (h2 : initialize_erc20_token envT c par proto tk w1 = (Except.ok tok, w2)) :
    w2.scopes.parent? tok.abortable_system = some ctx.abortable_system ∧
    w2.scopes.parent? c.abortable_system = some ctx.abortable_system ∧
    cancelTerminates w2.scopes c.abortable_system tok.abortable_system = false ∧
    cancelTerminates w2.scopes tok.abortable_system c.abortable_system = false ∧
    cancelTerminates w2.scopes ctx.abortable_system tok.abortable_system = true ∧
    cancelTerminates w2.scopes ctx.abortable_system c.abortable_system = true := by
  obtain ⟨-, -, -, -, hctx1, hab1, -, hpar1, -, hnext1⟩ := platform_ok_spec h1
  obtain ⟨-, -, -, -, -, -, -, -, -, -, -, -, -, -, -, -, -, -, habT, -, -, hparT, -, hnextT⟩ :=
    token_ok_spec hctx1 h2
  have hP2 : w2.scopes.parentOf =
      (w0.scopes.next + 1, ctx.abortable_system) ::
      (w0.scopes.next, ctx.abortable_system) :: w0.scopes.parentOf := by
    rw [hparT, hnext1, hpar1]
  have hWF2 : w2.scopes.WF := by
    intro pr hpr
    rw [hP2] at hpr
    rw [hnextT, hnext1]
    rcases List.mem_cons.1 hpr with rfl | hpr2
    · constructor <;> simp <;> omega
    rcases List.mem_cons.1 hpr2 with rfl | hpr3
    · constructor <;> simp <;> omega
    · have hold := hWF pr hpr3
      exact ⟨hold.1, by omega⟩
  have hlookT : w2.scopes.parentOf.lookup (w0.scopes.next + 1) = some ctx.abortable_system := by
    rw [hP2, List.lookup_cons, beq_self_eq_true]
  have hlookP : w2.scopes.parentOf.lookup w0.scopes.next = some ctx.abortable_system := by
    rw [hP2, List.lookup_cons, beq_eq_false_iff_ne.2 (by omega : w0.scopes.next ≠ w0.scopes.next + 1)]
    rw [List.lookup_cons, beq_self_eq_true]
  have hanc : ∀ s p, w2.scopes.parentOf.lookup s = some p →
      ∀ fuel, w2.scopes.ancestors (fuel + 1) s = p :: w2.scopes.ancestors fuel p := by
    intro s p hl fuel
    show (match w2.scopes.parentOf.lookup s with
      | none => ([] : List Nat)
      | some q => q :: w2.scopes.ancestors fuel q) = p :: w2.scopes.ancestors fuel p
    rw [hl]
  have hlen : w2.scopes.parentOf.length = w0.scopes.parentOf.length + 1 + 1 := by
    rw [hP2]
    simp
  have hancT : w2.scopes.ancestors w2.scopes.parentOf.length (w0.scopes.next + 1) =
      ctx.abortable_system ::
        w2.scopes.ancestors (w0.scopes.parentOf.length + 1) ctx.abortable_system := by
    rw [hlen]
    exact hanc _ _ hlookT _
  have hancP : w2.scopes.ancestors w2.scopes.parentOf.length w0.scopes.next =
      ctx.abortable_system ::
        w2.scopes.ancestors (w0.scopes.parentOf.length + 1) ctx.abortable_system := by
    rw [hlen]
    exact hanc _ _ hlookP _
  have hanclt : ∀ a, a ∈ w2.scopes.ancestors (w0.scopes.parentOf.length + 1)
      ctx.abortable_system → a < ctx.abortable_system :=
    fun a ha => scope_ancestors_lt hWF2 _ _ a ha
  refine ⟨?_, ?_, ?_, ?_, ?_, ?_⟩
  · rw [ScopeForest.parent?, habT, hnext1]
    exact hlookT
  · rw [ScopeForest.parent?, hab1]
    exact hlookP
  · rw [cancelTerminates, hab1, habT, hnext1, ScopeForest.isDescendantOf, hancT]
    rw [Bool.or_eq_false_iff]
    refine ⟨beq_eq_false_iff_ne.2 (by omega), ?_⟩
    simp only [List.contains, List.elem_eq_mem, decide_eq_false_iff_not]
    intro hmm
    rcases List.mem_cons.1 hmm with heq | hmm2
    · omega
    · have := hanclt _ hmm2
      omega
  · rw [cancelTerminates, hab1, habT, hnext1, ScopeForest.isDescendantOf, hancP]
    rw [Bool.or_eq_false_iff]
    refine ⟨beq_eq_false_iff_ne.2 (by omega), ?_⟩
    simp only [List.contains, List.elem_eq_mem, decide_eq_false_iff_not]
    intro hmm
    rcases List.mem_cons.1 hmm with heq | hmm2
    · omega
    · have := hanclt _ hmm2
      omega
  · rw [cancelTerminates, habT, hnext1, ScopeForest.isDescendantOf, hancT]
    simp
  · rw [cancelTerminates, hab1, ScopeForest.isDescendantOf, hancP]
    simp

/-- C4 witness: the amended claim applied to the concrete platform
activation and token derivation. -/
theorem C4_scope_siblings_witness :
    tokRunW.2.scopes.parent? tokCW.abortable_system = some ctxW.abortable_system ∧
    tokRunW.2.scopes.parent? C1c1.abortable_system = some ctxW.abortable_system ∧
    cancelTerminates tokRunW.2.scopes C1c1.abortable_system tokCW.abortable_system = false ∧
    cancelTerminates tokRunW.2.scopes tokCW.abortable_system C1c1.abortable_system = false ∧
    cancelTerminates tokRunW.2.scopes ctxW.abortable_system tokCW.abortable_system = true ∧
    cancelTerminates tokRunW.2.scopes ctxW.abortable_system C1c1.abortable_system = true :=
  @C4_scope_siblings envW envW ctxW "ETH" confW reqW (.IguanaPrivKey [1]) worldW C1run1.2
    tokRunW.2 C1c1 tokCW ⟨none⟩ ⟨"ETH", 5⟩ "USDT"
    (by intro pr hpr; simp [worldW] at hpr) (by decide) rfl rfl

/-- C7 (confirmed): a successfully derived token reuses the platform
coin's resolved address, key policy, swap contracts, nonce handle and
transport configuration verbatim; only the asset-specific fields
(ticker, decimals, coin type and contract address) differ, and inside
the cloned transports only the per-request identity tag (the gui-auth
`coin_ticker`) is rewritten — endpoints, liveness flags, signing secret
and address are identical to the platform coin's. -/
theorem C7_token_frame {envT : Env} {self : EthCoinImpl} {ctx : MmCtx}
    {par : Erc20TokenActivationRequest} {proto : Erc20Protocol} {tk : String}
    {w : World} {tok : EthCoinImpl} {w2 : World}
    (hctx : self.ctx = some ctx)
    (h : initialize_erc20_token envT self par proto tk w = (Except.ok tok, w2)) :
    tok.my_address = self.my_address ∧
    tok.priv_key_policy = self.priv_key_policy ∧
    tok.swap_contract_address = self.swap_contract_address ∧
    tok.fallback_swap_contract = self.fallback_swap_contract ∧
    tok.nonce_lock = self.nonce_lock ∧
    tok.sign_message_pfx = self.sign_message_pfx ∧
    tok.ticker = tk ∧
    tok.coin_type = EthCoinType.Erc20 proto.platform proto.token_addr ∧
    tok.web3.transport.nodes = self.web3.transport.nodes ∧
    tok.web3.transport.gui_auth_validation_generator.map GuiAuthValidationGenerator.secret =
      self.web3.transport.gui_auth_validation_generator.map GuiAuthValidationGenerator.secret ∧
    tok.web3.transport.gui_auth_validation_generator.map GuiAuthValidationGenerator.address =
      self.web3.transport.gui_auth_validation_generator.map GuiAuthValidationGenerator.address ∧
    tok.web3.transport.gui_auth_validation_generator.map GuiAuthValidationGenerator.coin_ticker =
      self.web3.transport.gui_auth_validation_generator.map (fun _ => tk) ∧
    tok.web3_instances.map Web3Instance.is_parity =
      self.web3_instances.map Web3Instance.is_parity ∧
    tok.web3_instances.map (fun n => n.web3.transport.nodes) =
      self.web3_instances.map (fun n => n.web3.transport.nodes) ∧
    tok.web3_instances.map (fun n =>
        n.web3.transport.gui_auth_validation_generator.map GuiAuthValidationGenerator.secret) =
      self.web3_instances.map (fun n =>
        n.web3.transport.gui_auth_validation_generator.map GuiAuthValidationGenerator.secret) ∧
    tok.web3_instances.map (fun n =>
        n.web3.transport.gui_auth_validation_generator.map GuiAuthValidationGenerator.coin_ticker) =
      self.web3_instances.map (fun n =>
        n.web3.transport.gui_auth_validation_generator.map (fun _ => tk)) := by
  obtain ⟨hp, ha, hct, hsm, hsw, hfb, htk, -, -, -, hw3, hinst, -, -, -, -, -, hnl, -, -, -, -, -, -⟩ :=
    token_ok_spec hctx h
  refine ⟨ha, hp, hsw, hfb, hnl, hsm, htk, hct, ?_, ?_, ?_, ?_, ?_, ?_, ?_, ?_⟩
  · rw [hw3]
    rfl
  · rw [hw3]
    cases hg : self.web3.transport.gui_auth_validation_generator <;>
      simp [rewrite_auth_ticker, hg]
  · rw [hw3]
    cases hg : self.web3.transport.gui_auth_validation_generator <;>
      simp [rewrite_auth_ticker, hg]
  · rw [hw3]
    cases hg : self.web3.transport.gui_auth_validation_generator <;>
      simp [rewrite_auth_ticker, hg]
  · rw [hinst, List.map_map]
    rfl
  · rw [hinst, List.map_map]
    rfl
  · rw [hinst, List.map_map]
    refine List.map_congr_left ?_
    intro n hn
    cases hg : n.web3.transport.gui_auth_validation_generator <;>
      simp [Function.comp, rewrite_auth_ticker, hg]
  · rw [hinst, List.map_map]
    refine List.map_congr_left ?_
    intro n hn
    cases hg : n.web3.transport.gui_auth_validation_generator <;>
      simp [Function.comp, rewrite_auth_ticker, hg]

/-- C7 witness: the frame property applied to the concrete token
derivation from the concrete platform coin. -/
theorem C7_token_frame_witness :
    tokCW.my_address = C1c1.my_address ∧
    tokCW.priv_key_policy = C1c1.priv_key_policy ∧
    tokCW.swap_contract_address = C1c1.swap_contract_address ∧
    tokCW.fallback_swap_contract = C1c1.fallback_swap_contract ∧
    tokCW.nonce_lock = C1c1.nonce_lock ∧
    tokCW.sign_message_pfx = C1c1.sign_message_pfx ∧
    tokCW.ticker = "USDT" ∧
    tokCW.coin_type = EthCoinType.Erc20 "ETH" 5 ∧
    tokCW.web3.transport.nodes = C1c1.web3.transport.nodes ∧
    tokCW.web3.transport.gui_auth_validation_generator.map GuiAuthValidationGenerator.secret =
      C1c1.web3.transport.gui_auth_validation_generator.map GuiAuthValidationGenerator.secret ∧
    tokCW.web3.transport.gui_auth_validation_generator.map GuiAuthValidationGenerator.address =
      C1c1.web3.transport.gui_auth_validation_generator.map GuiAuthValidationGenerator.address ∧
    tokCW.web3.transport.gui_auth_validation_generator.map GuiAuthValidationGenerator.coin_ticker =
      C1c1.web3.transport.gui_auth_validation_generator.map (fun _ => "USDT") ∧
    tokCW.web3_instances.map Web3Instance.is_parity =
      C1c1.web3_instances.map Web3Instance.is_parity ∧
    tokCW.web3_instances.map (fun n => n.web3.transport.nodes) =
      C1c1.web3_instances.map (fun n => n.web3.transport.nodes) ∧
    tokCW.web3_instances.map (fun n =>
        n.web3.transport.gui_auth_validation_generator.map GuiAuthValidationGenerator.secret) =
      C1c1.web3_instances.map (fun n =>
        n.web3.transport.gui_auth_validation_generator.map GuiAuthValidationGenerator.secret) ∧
    tokCW.web3_instances.map (fun n =>
        n.web3.transport.gui_auth_validation_generator.map GuiAuthValidationGenerator.coin_ticker) =
      C1c1.web3_instances.map (fun n =>
        n.web3.transport.gui_auth_validation_generator.map (fun _ => "USDT")) :=
  @C7_token_frame envW C1c1 ctxW ⟨none⟩ ⟨"ETH", 5⟩ "USDT" C1run1.2 tokCW tokRunW.2 rfl rfl

/-- C8 (confirmed): every successful platform activation produces a coin
whose `decimals` equal the hard-coded `ETH_DECIMALS` constant, and the
platform constructor never consults the config's `decimals` value:
activating with the `decimals` config field replaced by anything yields
the identical result. -/
theorem C8_platform_eth_decimals {env : Env} {ctx : MmCtx} {ticker : String}
    {conf : CoinConf} {req : EthActivationV2Request} {pol : EthPrivKeyBuildPolicy}
    {w : World} {c : EthCoinImpl} {w2 : World}
    (h : eth_coin_from_conf_and_request_v2 env ctx ticker conf req pol w = (Except.ok c, w2)) :
    c.decimals = ETH_DECIMALS ∧
    ∀ d : Option Nat,
      eth_coin_from_conf_and_request_v2 env ctx ticker { conf with decimals := d } req pol w =
        eth_coin_from_conf_and_request_v2 env ctx ticker conf req pol w := by
  refine ⟨(platform_ok_spec h).2.1, ?_⟩
  intro d
  cases conf
  rfl

/-- C8 witness: applied to the concrete platform activation. -/
theorem C8_platform_eth_decimals_witness :
    C1c1.decimals = ETH_DECIMALS ∧
    ∀ d : Option Nat,
      eth_coin_from_conf_and_request_v2 envW ctxW "ETH" { confW with decimals := d } reqW
          (.IguanaPrivKey [1]) worldW =
        eth_coin_from_conf_and_request_v2 envW ctxW "ETH" confW reqW
          (.IguanaPrivKey [1]) worldW :=
  @C8_platform_eth_decimals envW ctxW "ETH" confW reqW (.IguanaPrivKey [1]) worldW C1c1
    C1run1.2 rfl

/-- C10 (confirmed): when the config supplies a nonzero decimals value
`d`, the token's `decimals` equal `d % 256` (the unchecked `as u8`
cast), any nonzero multiple of 256 yields 0, and the on-chain decimals
query is never consulted — the whole run is identical under every
decimals oracle, including one that always fails. -/
theorem C10_token_decimals_cast {env : Env} {self : EthCoinImpl} {ctx : MmCtx}
    {par : Erc20TokenActivationRequest} {proto : Erc20Protocol} {tk : String}
    {w : World} {tok : EthCoinImpl} {w2 : World} {d : Nat}
    (hctx : self.ctx = some ctx)
    (hconf : (ctx.coin_conf tk).decimals = some d) (hpos : 0 < d)
    (h : initialize_erc20_token env self par proto tk w = (Except.ok tok, w2)) :
    tok.decimals = d % 256 ∧
    (256 ∣ d → tok.decimals = 0) ∧
    (∀ g, initialize_erc20_token { env with get_token_decimals := g } self par proto tk w =
      initialize_erc20_token env self par proto tk w) := by
  obtain ⟨k, rfl⟩ : ∃ k, d = k + 1 := ⟨d - 1, by omega⟩
  obtain ⟨-, -, -, -, -, -, -, -, -, -, -, -, -, -, -, -, -, -, -, hdec, -, -, -, -⟩ :=
    token_ok_spec hctx h
  have hd : tok.decimals = (k + 1) % 256 := hdec k hconf
  refine ⟨hd, ?_, ?_⟩
  · intro hdvd
    obtain ⟨m, hm⟩ := hdvd
    rw [hd, hm]
    exact Nat.mul_mod_right 256 m
  · intro g
    unfold initialize_erc20_token
    rw [hctx]
    dsimp only
    rw [hconf]

/-- C10 witness: applied to the concrete 300-decimal config and the
always-failing decimals oracle. -/
theorem C10_token_decimals_cast_witness :
    C10tok.decimals = 300 % 256 ∧
    (256 ∣ 300 → C10tok.decimals = 0) ∧
    (∀ g, initialize_erc20_token { C10env with get_token_decimals := g } selfT300 ⟨none⟩
        ⟨"ETH", 5⟩ "TKN" worldW =
      initialize_erc20_token C10env selfT300 ⟨none⟩ ⟨"ETH", 5⟩ "TKN" worldW) :=
  @C10_token_decimals_cast C10env selfT300 ctxT300 ⟨none⟩ ⟨"ETH", 5⟩ "TKN" worldW C10tok
    C10run.2 300 rfl rfl (by omega) rfl

end EthActivation
